import Mathlib

/-!
Verification of the map-browsing frontend (repository Sufmax/Map).

The repository contains two variants of the same single-file React app:

* the baseline variant (src/frontend/src/App.js): one shared marker list
  capped at 5 entries, zoom 12 on search success, French-only strings;
* the bilingual variant (src/unnamed/part_000): a searchMarkers list capped
  at 5 plus a single replaceable clickMarker, zoom 14 on search success, a
  fr/en translation table, and a remount key bumped on language change.

The state of each variant is the collection of useState cells of its App
component; every event handler is embedded as a pure function from inputs
and previous state to next state.  Coordinates are modelled as rationals;
the JavaScript Number.prototype.toFixed and String.prototype.trim library
routines are modelled by executable Lean functions with the same
input/output behaviour on the values involved (round half away from zero,
whitespace stripping at both ends).
-/

/-- Model of String.prototype.trim, leading side: drop whitespace characters
from the front of a character list. -/
def dropWs : List Char → List Char
  | [] => []
  | c :: cs => if c.isWhitespace then dropWs cs else c :: cs

/-- Model of String.prototype.trim: strip whitespace from both ends. -/
def jsTrim (s : String) : String :=
  String.mk ((dropWs (dropWs s.data).reverse).reverse)

/-- The f decimal digits of m (mod 10 to the f), most significant first,
zero padded to exactly f characters. -/
def fracDigits : ℕ → ℕ → List Char
  | _, 0 => []
  | m, f + 1 => fracDigits (m / 10) f ++ [Char.ofNat (48 + m % 10)]

/-- The integer closest to the absolute value of x scaled by 10 to the f,
ties rounded up: the rounding used by Number.prototype.toFixed, computed
directly on the numerator and denominator (floor of abs x times 10 to the f
plus one half). -/
def toFixedNum (x : ℚ) (f : ℕ) : ℕ :=
  (2 * x.num.natAbs * 10 ^ f + x.den) / (2 * x.den)

/-- Model of Number.prototype.toFixed: sign, integer part, a dot, then
exactly f fractional digits. -/
def toFixed (x : ℚ) (f : ℕ) : String :=
  (if x < 0 then "-" else "")
    ++ toString (toFixedNum x f / 10 ^ f) ++ "."
    ++ String.mk (fracDigits (toFixedNum x f % 10 ^ f) f)

/-- JavaScript a || b on a possibly-absent string: the string when present
and non-empty (truthy), otherwise the fallback. -/
def jsOrElse : Option String → String → String
  | some s, fallback => if s = "" then fallback else s
  | none, fallback => fallback

/-- JavaScript truthiness filter used by cond-rendering location.name:
keeps a present, non-empty string. -/
def jsTruthyName : Option String → Option String
  | some n => if n = "" then none else some n
  | none => none

/-- The two UI languages of the bilingual variant. -/
inductive Lang
  | fr
  | en
deriving DecidableEq

/-- One row of the translations table (part_000 lines 26 to 75; the baseline
variant hardcodes the French strings at their use sites). -/
structure Translation where
  appTitle : String
  appSubtitle : String
  searchPlaceholder : String
  searchButton : String
  searching : String
  streetView : String
  satelliteView : String
  terrainView : String
  locationInfo : String
  latitude : String
  longitude : String
  place : String
  markers : String
  zoom : String
  view : String
  locationNotFound : String
  searchError : String
  clickMarker : String
  searchMarker : String
  mapData : String
  contributors : String
  satelliteImages : String
deriving DecidableEq

/-- The translations table of the bilingual variant. -/
def translations : Lang → Translation
  | Lang.fr =>
    { appTitle := "Globe Interactif"
      appSubtitle := "Explorez le monde avec des cartes satellites et des données géographiques en temps réel"
      searchPlaceholder := "Rechercher un lieu..."
      searchButton := "Rechercher"
      searching := "Recherche..."
      streetView := "Vue Carte"
      satelliteView := "Vue Satellite"
      terrainView := "Vue Terrain"
      locationInfo := "Informations de localisation"
      latitude := "Latitude"
      longitude := "Longitude"
      place := "Lieu"
      markers := "Marqueurs"
      zoom := "Zoom"
      view := "Vue"
      locationNotFound := "Lieu non trouvé. Essayez avec un autre terme de recherche."
      searchError := "Erreur lors de la recherche. Veuillez réessayer."
      clickMarker := "Clic: "
      searchMarker := "Recherche: "
      mapData := "Données cartographiques"
      contributors := "contributors"
      satelliteImages := "Images satellite" }
  | Lang.en =>
    { appTitle := "Interactive Globe"
      appSubtitle := "Explore the world with satellite maps and real-time geographic data"
      searchPlaceholder := "Search for a location..."
      searchButton := "Search"
      searching := "Searching..."
      streetView := "Street View"
      satelliteView := "Satellite View"
      terrainView := "Terrain View"
      locationInfo := "Location Information"
      latitude := "Latitude"
      longitude := "Longitude"
      place := "Place"
      markers := "Markers"
      zoom := "Zoom"
      view := "View"
      locationNotFound := "Location not found. Try with another search term."
      searchError := "Search error. Please try again."
      clickMarker := "Click: "
      searchMarker := "Search: "
      mapData := "Map data"
      contributors := "contributors"
      satelliteImages := "Satellite images" }

/-- A plain coordinate, as delivered by a map click event. -/
structure Coordinate where
  lat : ℚ
  lng : ℚ
deriving DecidableEq

/-- A resolved location, as delivered to onSearch by the SearchBox:
coordinate plus the optional display name of the geocoder result. -/
structure Location where
  lat : ℚ
  lng : ℚ
  name : Option String
deriving DecidableEq

/-- A map marker: Date.now() identifier, position, display label. -/
structure Marker where
  id : ℕ
  position : ℚ × ℚ
  name : String
deriving DecidableEq

/-- A tile-layer descriptor as passed to onLayerChange. -/
structure TileLayer where
  id : String
  name : String
  url : String
deriving DecidableEq

/-- One element of the Nominatim JSON response array, after the parseFloat
calls of SearchBox.handleSearch. -/
structure GeoResult where
  lat : ℚ
  lon : ℚ
  display_name : String
deriving DecidableEq

/-- Outcome of the geocoding fetch: a parsed JSON array, or a transport or
parse failure (the catch branch of SearchBox.handleSearch). -/
inductive FetchResult
  | ok (results : List GeoResult)
  | fail
deriving DecidableEq

namespace Bilingual

/-- The useState cells of the App component of the bilingual variant
(part_000 lines 255 to 267). -/
structure State where
  language : Lang
  mapCenter : ℚ × ℚ
  mapZoom : ℕ
  selectedLocation : Option Location
  clickedLocation : Option Coordinate
  currentLayer : TileLayer
  searchMarkers : List Marker
  clickMarker : Option Marker
  key : ℕ
deriving DecidableEq

/-- The initial state of the bilingual variant (part_000 lines 255 to 267):
note the initial street layer URL is the openstreetmap.org template even
though the initial language is French. -/
def initialState : State :=
  { language := Lang.fr
    mapCenter := ((46.603354 : ℚ), (1.888334 : ℚ))
    mapZoom := 6
    selectedLocation := none
    clickedLocation := none
    currentLayer :=
      { id := "street"
        name := "Vue Carte"
        url := "https://{s}.tile.openstreetmap.org/{z}/{x}/{y}.png" }
    searchMarkers := []
    clickMarker := none
    key := 0 }

/-- The street tile URL template per language (part_000 lines 279 to 281). -/
def streetUrl : Lang → String
  | Lang.fr => "https://{s}.tile.openstreetmap.fr/osmfr/{z}/{x}/{y}.png"
  | Lang.en => "https://{s}.tile.openstreetmap.org/{z}/{x}/{y}.png"

/-- handleLanguageChange (part_000 lines 271 to 287): set the language,
re-derive the current layer display name, swap the street URL template to
the per-language one, and bump the remount key. -/
def handleLanguageChange (newLanguage : Lang) (s : State) : State :=
  { s with
    language := newLanguage
    currentLayer :=
      { s.currentLayer with
        name :=
          if s.currentLayer.id = "street" then (translations newLanguage).streetView
          else if s.currentLayer.id = "satellite" then (translations newLanguage).satelliteView
          else (translations newLanguage).terrainView
        url :=
          if s.currentLayer.id = "street" then
            (if newLanguage = Lang.fr
              then "https://{s}.tile.openstreetmap.fr/osmfr/{z}/{x}/{y}.png"
              else "https://{s}.tile.openstreetmap.org/{z}/{x}/{y}.png")
          else s.currentLayer.url }
    key := s.key + 1 }

/-- The search marker built inside handleSearch (part_000 lines 296 to 300):
label is location.name when truthy, otherwise the synthesized translated
search label with both coordinates at 4 decimal places. -/
def mkSearchMarker (id : ℕ) (t : Translation) (location : Location) : Marker :=
  { id := id
    position := (location.lat, location.lng)
    name := jsOrElse location.name
      (t.searchMarker ++ toFixed location.lat 4 ++ ", " ++ toFixed location.lng 4) }

/-- handleSearch of the bilingual App (part_000 lines 289 to 308): recenter,
zoom to 14, record the selected location, prepend the new marker and keep at
most 5.  The delayed setTimeout re-assignment writes the same center and
zoom values again and has no further effect on this state. -/
def handleSearch (now : ℕ) (location : Location) (s : State) : State :=
  { s with
    mapCenter := (location.lat, location.lng)
    mapZoom := 14
    selectedLocation := some location
    searchMarkers :=
      mkSearchMarker now (translations s.language) location :: s.searchMarkers.take 4 }

/-- The click marker built inside handleLocationClick (part_000 lines 313
to 318). -/
def mkClickMarker (id : ℕ) (t : Translation) (c : Coordinate) : Marker :=
  { id := id
    position := (c.lat, c.lng)
    name := t.clickMarker ++ toFixed c.lat 4 ++ ", " ++ toFixed c.lng 4 }

/-- handleLocationClick of the bilingual App (part_000 lines 310 to 320):
record the clicked location and replace the single click marker. -/
def handleLocationClick (now : ℕ) (c : Coordinate) (s : State) : State :=
  { s with
    clickedLocation := some c
    clickMarker := some (mkClickMarker now (translations s.language) c) }

/-- handleLayerChange (part_000 lines 322 to 324). -/
def handleLayerChange (layer : TileLayer) (s : State) : State :=
  { s with currentLayer := layer }

/-- handleCenterMap (part_000 lines 326 to 331). -/
def handleCenterMap (s : State) : State :=
  { s with
    mapCenter := ((46.603354 : ℚ), (1.888334 : ℚ))
    mapZoom := 6
    selectedLocation := none
    clickedLocation := none }

/-- Observable effects of one submit of the SearchBox form: the resulting
App state, the alert message if any, whether the fetch was issued, and
whether the isLoading flag was ever set. -/
structure SearchEffects where
  state : State
  notice : Option String
  requestIssued : Bool
  loadingUsed : Bool
deriving DecidableEq

/-- SearchBox.handleSearch of the bilingual variant (part_000 lines 111 to
139) composed with the onSearch callback (the App handleSearch above):
an all-whitespace query returns before setting isLoading or fetching; a
non-empty array applies onSearch to the first element; an empty array
alerts the translated locationNotFound string; a failed fetch alerts the
translated searchError string. -/
def searchSubmit (now : ℕ) (searchTerm : String) (resp : FetchResult) (s : State) :
    SearchEffects :=
  if jsTrim searchTerm = "" then
    { state := s, notice := none, requestIssued := false, loadingUsed := false }
  else
    match resp with
    | FetchResult.ok (r :: _) =>
        { state := handleSearch now { lat := r.lat, lng := r.lon, name := some r.display_name } s
          notice := none
          requestIssued := true
          loadingUsed := true }
    | FetchResult.ok [] =>
        { state := s
          notice := some (translations s.language).locationNotFound
          requestIssued := true
          loadingUsed := true }
    | FetchResult.fail =>
        { state := s
          notice := some (translations s.language).searchError
          requestIssued := true
          loadingUsed := true }

/-- A sequence of successful searches applied in order (each element is the
Date.now() value paired with the resolved location). -/
def foldSearches (l : List (ℕ × Location)) (s : State) : State :=
  l.foldl (fun st p => handleSearch p.1 p.2 st) s

end Bilingual

namespace Baseline

/-- The useState cells of the App component of the baseline variant
(App.js lines 221 to 230): a single markers list shared by search and click
markers, no language cell, no remount key. -/
structure State where
  mapCenter : ℚ × ℚ
  mapZoom : ℕ
  selectedLocation : Option Location
  clickedLocation : Option Coordinate
  currentLayer : TileLayer
  markers : List Marker
deriving DecidableEq

/-- The initial state of the baseline variant (App.js lines 221 to 230). -/
def initialState : State :=
  { mapCenter := ((46.603354 : ℚ), (1.888334 : ℚ))
    mapZoom := 6
    selectedLocation := none
    clickedLocation := none
    currentLayer :=
      { id := "street"
        name := "Vue Carte"
        url := "https://{s}.tile.openstreetmap.org/{z}/{x}/{y}.png" }
    markers := [] }

/-- The search marker built inside handleSearch (App.js lines 238 to 242):
label is location.name when truthy, otherwise the hardcoded French search
label with both coordinates at 4 decimal places. -/
def mkSearchMarker (id : ℕ) (location : Location) : Marker :=
  { id := id
    position := (location.lat, location.lng)
    name := jsOrElse location.name
      ("Recherche: " ++ toFixed location.lat 4 ++ ", " ++ toFixed location.lng 4) }

/-- handleSearch of the baseline App (App.js lines 232 to 244): recenter,
zoom to 12, record the selected location, prepend the new marker to the
shared markers list and keep at most 5. -/
def handleSearch (now : ℕ) (location : Location) (s : State) : State :=
  { s with
    mapCenter := (location.lat, location.lng)
    mapZoom := 12
    selectedLocation := some location
    markers := mkSearchMarker now location :: s.markers.take 4 }

/-- The click marker built inside handleLocationClick (App.js lines 250 to
254). -/
def mkClickMarker (id : ℕ) (c : Coordinate) : Marker :=
  { id := id
    position := (c.lat, c.lng)
    name := "Clic: " ++ toFixed c.lat 4 ++ ", " ++ toFixed c.lng 4 }

/-- handleLocationClick of the baseline App (App.js lines 246 to 256):
record the clicked location and prepend the click marker to the same shared
5-capacity markers list. -/
def handleLocationClick (now : ℕ) (c : Coordinate) (s : State) : State :=
  { s with
    clickedLocation := some c
    markers := mkClickMarker now c :: s.markers.take 4 }

/-- handleLayerChange (App.js lines 258 to 260). -/
def handleLayerChange (layer : TileLayer) (s : State) : State :=
  { s with currentLayer := layer }

/-- handleCenterMap (App.js lines 262 to 267). -/
def handleCenterMap (s : State) : State :=
  { s with
    mapCenter := ((46.603354 : ℚ), (1.888334 : ℚ))
    mapZoom := 6
    selectedLocation := none
    clickedLocation := none }

/-- Observable effects of one submit of the baseline SearchBox form. -/
structure SearchEffects where
  state : State
  notice : Option String
  requestIssued : Bool
  loadingUsed : Bool
deriving DecidableEq

/-- SearchBox.handleSearch of the baseline variant (App.js lines 93 to 121)
composed with the onSearch callback: identical control flow to the
bilingual variant but with the two alert strings hardcoded in French. -/
def searchSubmit (now : ℕ) (searchTerm : String) (resp : FetchResult) (s : State) :
    SearchEffects :=
  if jsTrim searchTerm = "" then
    { state := s, notice := none, requestIssued := false, loadingUsed := false }
  else
    match resp with
    | FetchResult.ok (r :: _) =>
        { state := handleSearch now { lat := r.lat, lng := r.lon, name := some r.display_name } s
          notice := none
          requestIssued := true
          loadingUsed := true }
    | FetchResult.ok [] =>
        { state := s
          notice := some "Lieu non trouvé. Essayez avec un autre terme de recherche."
          requestIssued := true
          loadingUsed := true }
    | FetchResult.fail =>
        { state := s
          notice := some "Erreur lors de la recherche. Veuillez réessayer."
          requestIssued := true
          loadingUsed := true }

/-- A marker-creating user event of the baseline variant: a successful
search or a map click. -/
inductive Event
  | search (id : ℕ) (location : Location)
  | click (id : ℕ) (c : Coordinate)
deriving DecidableEq

/-- The marker an event inserts into the shared list. -/
def eventMarker : Event → Marker
  | Event.search id location => mkSearchMarker id location
  | Event.click id c => mkClickMarker id c

/-- Apply one marker-creating event to the state. -/
def applyEvent (s : State) : Event → State
  | Event.search id location => handleSearch id location s
  | Event.click id c => handleLocationClick id c s

/-- A sequence of marker-creating events applied in order. -/
def foldEvents (evs : List Event) (s : State) : State :=
  evs.foldl applyEvent s

end Baseline

/-- What the InfoPanel renders: the two formatted coordinate strings and
the optional place line. -/
structure InfoRender where
  latText : String
  lngText : String
  placeText : Option String
deriving DecidableEq

/-- The InfoPanel component (App.js lines 200 to 218, part_000 lines 233 to
252): renders nothing when both locations are absent, otherwise renders
selectedLocation if present else clickedLocation, with both coordinates at
6 decimal places and a place line only for a truthy name.  A clicked
location carries no name, so its place line is always absent. -/
def InfoPanel (selectedLocation : Option Location) (clickedLocation : Option Coordinate) :
    Option InfoRender :=
  match selectedLocation, clickedLocation with
  | none, none => none
  | some l, _ =>
      some { latText := toFixed l.lat 6, lngText := toFixed l.lng 6
             placeText := jsTruthyName l.name }
  | none, some c =>
      some { latText := toFixed c.lat 6, lngText := toFixed c.lng 6, placeText := none }

/-- A concrete resolved location used to instantiate witness theorems. -/
def parisLocation : Location :=
  { lat := 48, lng := 2, name := some "Paris, France" }

/-- A concrete clicked coordinate used to instantiate witness theorems. -/
def sampleCoordinate : Coordinate :=
  { lat := 1, lng := 2 }

/-- Six successive successful searches used to instantiate witness
theorems. -/
def sampleSearchSeq : List (ℕ × Location) :=
  [(1, parisLocation), (2, parisLocation), (3, parisLocation),
   (4, parisLocation), (5, parisLocation), (6, parisLocation)]

/-- fracDigits always yields exactly the requested number of characters. -/
theorem fracDigits_length (m f : ℕ) : (fracDigits m f).length = f := by
  induction f generalizing m with
  | zero => rfl
  | succ f ih => simp [fracDigits, ih]

/-- Every 6-place toFixed string splits as some prefix, a dot, and exactly
six fractional digit characters. -/
theorem toFixed_splitSix (x : ℚ) :
    ∃ p ds, toFixed x 6 = p ++ "." ++ String.mk ds ∧ ds.length = 6 :=
  ⟨(if x < 0 then "-" else "") ++ toString (toFixedNum x 6 / 10 ^ 6),
   fracDigits (toFixedNum x 6 % 10 ^ 6) 6, rfl, fracDigits_length _ 6⟩

/-- Taking 5 from a list whose tail beyond a marker was already cut to 4 is
the same as taking 5 from the uncut list. -/
theorem take5_mid (A : List Marker) (m : Marker) (l : List Marker) :
    (A ++ m :: l.take 4).take 5 = (A ++ m :: l).take 5 := by
  rw [List.take_append_eq_append_take, List.take_append_eq_append_take]
  congr 1
  rcases Nat.lt_or_ge A.length 5 with h5 | h5
  · have h : 5 - A.length = (4 - A.length) + 1 := by omega
    rw [h, List.take_succ_cons, List.take_succ_cons, List.take_take,
      Nat.min_eq_left (by omega : 4 - A.length ≤ 4)]
  · have h : 5 - A.length = 0 := by omega
    rw [h, List.take_zero, List.take_zero]

/-- Folding prepend-then-cut-to-4 over a list of markers, starting from an
accumulator of at most 5 entries, yields the newest-first concatenation
truncated to 5. -/
theorem push5_foldl (ms : List Marker) (acc : List Marker) (h : acc.length ≤ 5) :
    ms.foldl (fun a m => m :: a.take 4) acc = (ms.reverse ++ acc).take 5 := by
  induction ms generalizing acc with
  | nil =>
    simp only [List.foldl_nil, List.reverse_nil, List.nil_append]
    exact (List.take_of_length_le h).symm
  | cons m ms ih =>
    rw [List.foldl_cons,
      ih (m :: acc.take 4) (by simp only [List.length_cons, List.length_take]; omega),
      List.reverse_cons, List.append_assoc, List.singleton_append]
    exact take5_mid _ _ _

namespace Bilingual

/-- handleSearch leaves the language cell untouched. -/
theorem handleSearch_language (now : ℕ) (location : Location) (s : State) :
    (handleSearch now location s).language = s.language := rfl

/-- The searchMarkers update performed by handleSearch. -/
theorem handleSearch_searchMarkers (now : ℕ) (location : Location) (s : State) :
    (handleSearch now location s).searchMarkers
      = mkSearchMarker now (translations s.language) location :: s.searchMarkers.take 4 := rfl

/-- The searchMarkers cell after a sequence of searches is the fold of the
prepend-then-cut rule over the markers those searches create. -/
theorem foldSearches_markers (l : List (ℕ × Location)) (s : State) :
    (foldSearches l s).searchMarkers
      = (l.map fun p => mkSearchMarker p.1 (translations s.language) p.2).foldl
          (fun a m => m :: a.take 4) s.searchMarkers := by
  induction l generalizing s with
  | nil => rfl
  | cons p l ih => exact ih (handleSearch p.1 p.2 s)

end Bilingual

namespace Baseline

/-- The markers cell after a sequence of events is the fold of the
prepend-then-cut rule over the markers those events create. -/
theorem foldEvents_markers (evs : List Event) (s : State) :
    (foldEvents evs s).markers
      = (evs.map eventMarker).foldl (fun a m => m :: a.take 4) s.markers := by
  induction evs generalizing s with
  | nil => rfl
  | cons e evs ih =>
    cases e with
    | search id location => exact ih (handleSearch id location s)
    | click id c => exact ih (handleLocationClick id c s)

end Baseline

/-- Any rendered InfoPanel carries 6-place formatted coordinate texts. -/
theorem InfoPanel_texts (sel : Option Location) (clicked : Option Coordinate)
    (r : InfoRender) (hr : InfoPanel sel clicked = some r) :
    ∃ a b : ℚ, r.latText = toFixed a 6 ∧ r.lngText = toFixed b 6 := by
  rcases sel with _ | l
  · rcases clicked with _ | c
    · exact absurd hr (by simp [InfoPanel])
    · exact ⟨c.lat, c.lng, by rw [← Option.some_inj.mp hr], by rw [← Option.some_inj.mp hr]⟩
  · exact ⟨l.lat, l.lng, by rw [← Option.some_inj.mp hr], by rw [← Option.some_inj.mp hr]⟩

/-- Claim C1: a successful search with coordinate and optional label sets
the center to that coordinate, sets zoom 14 in the bilingual variant and 12
in the baseline variant, records the selected location, and prepends a new
marker to the search-marker list truncated to at most 5 entries; the marker
label is the provided name when present and non-empty, otherwise the
synthesized search label with both coordinates at 4 decimal places. -/
theorem search_success_transition_C1 (now : ℕ) (location : Location)
    (s : Bilingual.State) (b : Baseline.State) :
    ((Bilingual.handleSearch now location s).mapCenter = (location.lat, location.lng)
      ∧ (Bilingual.handleSearch now location s).mapZoom = 14
      ∧ (Bilingual.handleSearch now location s).selectedLocation = some location
      ∧ (Bilingual.handleSearch now location s).searchMarkers
          = (Bilingual.mkSearchMarker now (translations s.language) location
              :: s.searchMarkers).take 5
      ∧ (Bilingual.handleSearch now location s).searchMarkers.length ≤ 5)
    ∧ ((Baseline.handleSearch now location b).mapCenter = (location.lat, location.lng)
      ∧ (Baseline.handleSearch now location b).mapZoom = 12
      ∧ (Baseline.handleSearch now location b).selectedLocation = some location
      ∧ (Baseline.handleSearch now location b).markers
          = (Baseline.mkSearchMarker now location :: b.markers).take 5
      ∧ (Baseline.handleSearch now location b).markers.length ≤ 5)
    ∧ ((Bilingual.mkSearchMarker now (translations s.language) location).position
        = (location.lat, location.lng))
    ∧ (∀ n, location.name = some n → n ≠ "" →
        (Bilingual.mkSearchMarker now (translations s.language) location).name = n
        ∧ (Baseline.mkSearchMarker now location).name = n)
    ∧ (location.name = none →
        (Bilingual.mkSearchMarker now (translations s.language) location).name
          = (translations s.language).searchMarker
              ++ toFixed location.lat 4 ++ ", " ++ toFixed location.lng 4
        ∧ (Baseline.mkSearchMarker now location).name
          = "Recherche: " ++ toFixed location.lat 4 ++ ", " ++ toFixed location.lng 4) := by
  refine ⟨⟨rfl, rfl, rfl, rfl, ?_⟩, ⟨rfl, rfl, rfl, rfl, ?_⟩, rfl, ?_, ?_⟩
  · simp only [Bilingual.handleSearch, List.length_cons, List.length_take]
    omega
  · simp only [Baseline.handleSearch, List.length_cons, List.length_take]
    omega
  · intro n hn hne
    constructor <;> simp [Bilingual.mkSearchMarker, Baseline.mkSearchMarker, jsOrElse, hn, hne]
  · intro hn
    constructor <;> simp [Bilingual.mkSearchMarker, Baseline.mkSearchMarker, jsOrElse, hn]

/-- Witness for C1 at a concrete search result carrying the display name
Paris, France: the created marker is labeled with that name. -/
theorem search_success_transition_C1_witness :
    (Bilingual.mkSearchMarker 0 (translations Bilingual.initialState.language)
        parisLocation).name = "Paris, France"
      ∧ (Baseline.mkSearchMarker 0 parisLocation).name = "Paris, France" :=
  (search_success_transition_C1 0 parisLocation Bilingual.initialState
      Baseline.initialState).2.2.2.1 "Paris, France" rfl (by decide)

/-- Claim C2: each successful search leaves the search-marker list at
length min 5 (prior length plus 1) with the newest marker first, and after
any sequence of at least 6 successful searches exactly the markers of the 5
most recent searches remain, newest first, every older marker having been
evicted. -/
theorem search_marker_capacity_C2 (now : ℕ) (location : Location)
    (s : Bilingual.State) (l : List (ℕ × Location)) (hl : 6 ≤ l.length) :
    ((Bilingual.handleSearch now location s).searchMarkers.length
        = min 5 (s.searchMarkers.length + 1))
    ∧ ((Bilingual.handleSearch now location s).searchMarkers.head?
        = some (Bilingual.mkSearchMarker now (translations s.language) location))
    ∧ ((Bilingual.foldSearches l s).searchMarkers
        = ((l.map fun p => Bilingual.mkSearchMarker p.1 (translations s.language) p.2).reverse).take 5) := by
  refine ⟨?_, rfl, ?_⟩
  · simp only [Bilingual.handleSearch, List.length_cons, List.length_take]
    omega
  · cases l with
    | nil => simp at hl
    | cons p l =>
      have h5 : 5 ≤ l.length := by
        simp only [List.length_cons] at hl
        omega
      have hstep : Bilingual.foldSearches (p :: l) s
          = Bilingual.foldSearches l (Bilingual.handleSearch p.1 p.2 s) := rfl
      rw [hstep, Bilingual.foldSearches_markers, Bilingual.handleSearch_language,
        push5_foldl _ _ (by
          rw [Bilingual.handleSearch_searchMarkers]
          simp only [List.length_cons, List.length_take]
          omega),
        List.map_cons, List.reverse_cons,
        List.take_append_of_le_length (by
          simp only [List.length_reverse, List.length_map]
          omega),
        List.take_append_of_le_length (by
          simp only [List.length_reverse, List.length_map]
          omega)]

/-- Witness for C2 at a concrete sequence of six successful searches from
the initial state. -/
theorem search_marker_capacity_C2_witness :
    ((Bilingual.handleSearch 0 parisLocation Bilingual.initialState).searchMarkers.length
        = min 5 (Bilingual.initialState.searchMarkers.length + 1))
    ∧ ((Bilingual.handleSearch 0 parisLocation Bilingual.initialState).searchMarkers.head?
        = some (Bilingual.mkSearchMarker 0
            (translations Bilingual.initialState.language) parisLocation))
    ∧ ((Bilingual.foldSearches sampleSearchSeq Bilingual.initialState).searchMarkers
        = ((sampleSearchSeq.map fun p => Bilingual.mkSearchMarker p.1
            (translations Bilingual.initialState.language) p.2).reverse).take 5) :=
  search_marker_capacity_C2 0 parisLocation Bilingual.initialState sampleSearchSeq
    (by decide)

/-- Claim C3 counterexample: in the initial state of the bilingual variant
the current layer is street yet switching the language from French to
English leaves the URL template unchanged, because the initial street layer
already carries the English openstreetmap.org template.  This refutes the
claim that a language switch changes the URL template if and only if the
current layer is street. -/
theorem language_switch_C3_counterexample :
    Lang.en ≠ Bilingual.initialState.language
    ∧ Bilingual.initialState.currentLayer.id = "street"
    ∧ (Bilingual.handleLanguageChange Lang.en Bilingual.initialState).currentLayer.url
        = Bilingual.initialState.currentLayer.url :=
  ⟨by decide, rfl, rfl⟩

/-- Claim C3 as amended: on every language switch in the bilingual variant
the translation table in force changes, the active layer URL template is
set to the new language street template when the current layer is street
and is left unchanged otherwise (so the stored URL changes only when it
differs from the new language street template), and the map remount key is
incremented, forcing the map widget to remount. -/
theorem language_switch_C3 (lang : Lang) (s : Bilingual.State)
    (h : lang ≠ s.language) :
    ((Bilingual.handleLanguageChange lang s).language = lang)
    ∧ (translations (Bilingual.handleLanguageChange lang s).language
        ≠ translations s.language)
    ∧ (s.currentLayer.id = "street" →
        (Bilingual.handleLanguageChange lang s).currentLayer.url
          = Bilingual.streetUrl lang)
    ∧ (s.currentLayer.id ≠ "street" →
        (Bilingual.handleLanguageChange lang s).currentLayer.url
          = s.currentLayer.url)
    ∧ ((Bilingual.handleLanguageChange lang s).key = s.key + 1) := by
  refine ⟨rfl, ?_, ?_, ?_, rfl⟩
  · show translations lang ≠ translations s.language
    rcases hs : s.language <;> rw [hs] at h <;> cases lang <;>
      first
        | exact absurd rfl h
        | decide
  · intro hstreet
    cases lang <;>
      simp [Bilingual.handleLanguageChange, Bilingual.streetUrl, hstreet]
  · intro hn
    simp [Bilingual.handleLanguageChange, hn]

/-- Witness for the amended C3 at a concrete switch from French to English:
the remount key is incremented. -/
theorem language_switch_C3_witness :
    (Bilingual.handleLanguageChange Lang.en Bilingual.initialState).key
      = Bilingual.initialState.key + 1 :=
  (language_switch_C3 Lang.en Bilingual.initialState (by decide)).2.2.2.2

/-- Claim C4: from any prior state, handleCenterMap restores the fixed
default center and zoom 6, clears both location cells, and leaves the
marker lists (and in the bilingual variant the click marker) untouched. -/
theorem center_map_C4 (s : Bilingual.State) (b : Baseline.State) :
    ((Bilingual.handleCenterMap s).mapCenter = ((46.603354 : ℚ), (1.888334 : ℚ))
      ∧ (Bilingual.handleCenterMap s).mapZoom = 6
      ∧ (Bilingual.handleCenterMap s).selectedLocation = none
      ∧ (Bilingual.handleCenterMap s).clickedLocation = none
      ∧ (Bilingual.handleCenterMap s).searchMarkers = s.searchMarkers
      ∧ (Bilingual.handleCenterMap s).clickMarker = s.clickMarker
      ∧ (Bilingual.handleCenterMap s).currentLayer = s.currentLayer
      ∧ (Bilingual.handleCenterMap s).language = s.language)
    ∧ ((Baseline.handleCenterMap b).mapCenter = ((46.603354 : ℚ), (1.888334 : ℚ))
      ∧ (Baseline.handleCenterMap b).mapZoom = 6
      ∧ (Baseline.handleCenterMap b).selectedLocation = none
      ∧ (Baseline.handleCenterMap b).clickedLocation = none
      ∧ (Baseline.handleCenterMap b).markers = b.markers
      ∧ (Baseline.handleCenterMap b).currentLayer = b.currentLayer) :=
  ⟨⟨rfl, rfl, rfl, rfl, rfl, rfl, rfl, rfl⟩, rfl, rfl, rfl, rfl, rfl, rfl⟩

/-- Claim C5: a non-empty search whose geocoding response is an empty
result array, or whose request fails, surfaces the corresponding blocking
notice and leaves the whole state unchanged, in both variants. -/
theorem search_failure_C5 (now : ℕ) (q : String) (s : Bilingual.State)
    (b : Baseline.State) (hq : jsTrim q ≠ "") :
    Bilingual.searchSubmit now q (FetchResult.ok []) s
        = { state := s
            notice := some (translations s.language).locationNotFound
            requestIssued := true
            loadingUsed := true }
    ∧ Bilingual.searchSubmit now q FetchResult.fail s
        = { state := s
            notice := some (translations s.language).searchError
            requestIssued := true
            loadingUsed := true }
    ∧ Baseline.searchSubmit now q (FetchResult.ok []) b
        = { state := b
            notice := some "Lieu non trouvé. Essayez avec un autre terme de recherche."
            requestIssued := true
            loadingUsed := true }
    ∧ Baseline.searchSubmit now q FetchResult.fail b
        = { state := b
            notice := some "Erreur lors de la recherche. Veuillez réessayer."
            requestIssued := true
            loadingUsed := true } := by
  simp [Bilingual.searchSubmit, Baseline.searchSubmit, hq]

/-- Witness for C5 at the concrete query Paris and the empty geocoding
response, from the initial bilingual state. -/
theorem search_failure_C5_witness :
    Bilingual.searchSubmit 0 "Paris" (FetchResult.ok []) Bilingual.initialState
      = { state := Bilingual.initialState
          notice := some (translations Bilingual.initialState.language).locationNotFound
          requestIssued := true
          loadingUsed := true } :=
  (search_failure_C5 0 "Paris" Bilingual.initialState Baseline.initialState
    (by decide)).1

/-- Claim C6: a map click records the clicked location and creates a marker
whose label is the synthesized click string with both coordinates at 4
decimal places; in the bilingual variant the click marker is a single
always-replaced cell (search markers untouched), while in the baseline
variant the click marker is inserted into the same 5-capacity list as
search markers, eviction following global insertion order across both
marker kinds. -/
theorem map_click_C6 (now : ℕ) (c : Coordinate) (s : Bilingual.State)
    (b : Baseline.State) (evs : List Baseline.Event)
    (hb : b.markers.length ≤ 5) :
    ((Bilingual.handleLocationClick now c s).clickedLocation = some c)
    ∧ ((Bilingual.handleLocationClick now c s).clickMarker
        = some (Bilingual.mkClickMarker now (translations s.language) c))
    ∧ ((Bilingual.mkClickMarker now (translations s.language) c).name
        = (translations s.language).clickMarker
            ++ toFixed c.lat 4 ++ ", " ++ toFixed c.lng 4)
    ∧ ((Bilingual.handleLocationClick now c s).searchMarkers = s.searchMarkers)
    ∧ ((Baseline.handleLocationClick now c b).clickedLocation = some c)
    ∧ ((Baseline.handleLocationClick now c b).markers
        = (Baseline.mkClickMarker now c :: b.markers).take 5)
    ∧ ((Baseline.mkClickMarker now c).name
        = "Clic: " ++ toFixed c.lat 4 ++ ", " ++ toFixed c.lng 4)
    ∧ ((Baseline.foldEvents evs b).markers
        = ((evs.map Baseline.eventMarker).reverse ++ b.markers).take 5) := by
  refine ⟨rfl, rfl, rfl, rfl, rfl, rfl, rfl, ?_⟩
  rw [Baseline.foldEvents_markers]
  exact push5_foldl _ _ hb

/-- Witness for C6 at a concrete click on the initial states, with an
interleaved click-then-search event sequence for the baseline variant. -/
theorem map_click_C6_witness :
    ((Bilingual.handleLocationClick 7 sampleCoordinate
        Bilingual.initialState).clickedLocation = some sampleCoordinate)
    ∧ ((Baseline.foldEvents
          [Baseline.Event.click 1 sampleCoordinate,
           Baseline.Event.search 2 parisLocation]
          Baseline.initialState).markers
        = (([Baseline.Event.click 1 sampleCoordinate,
             Baseline.Event.search 2 parisLocation].map
              Baseline.eventMarker).reverse
            ++ Baseline.initialState.markers).take 5) :=
  ⟨(map_click_C6 7 sampleCoordinate Bilingual.initialState Baseline.initialState
      [] (by decide)).1,
   (map_click_C6 7 sampleCoordinate Bilingual.initialState Baseline.initialState
      [Baseline.Event.click 1 sampleCoordinate,
       Baseline.Event.search 2 parisLocation] (by decide)).2.2.2.2.2.2.2⟩

/-- Claim C7: handleLayerChange stores the given layer descriptor verbatim
as the current layer and changes nothing else, in both variants. -/
theorem layer_change_C7 (layer : TileLayer) (s : Bilingual.State)
    (b : Baseline.State) :
    ((Bilingual.handleLayerChange layer s).currentLayer = layer)
    ∧ ((Bilingual.handleLayerChange layer s).mapCenter = s.mapCenter)
    ∧ ((Bilingual.handleLayerChange layer s).mapZoom = s.mapZoom)
    ∧ ((Bilingual.handleLayerChange layer s).searchMarkers = s.searchMarkers)
    ∧ ((Bilingual.handleLayerChange layer s).clickMarker = s.clickMarker)
    ∧ ((Bilingual.handleLayerChange layer s).selectedLocation = s.selectedLocation)
    ∧ ((Bilingual.handleLayerChange layer s).clickedLocation = s.clickedLocation)
    ∧ ((Bilingual.handleLayerChange layer s).language = s.language)
    ∧ ((Bilingual.handleLayerChange layer s).key = s.key)
    ∧ ((Baseline.handleLayerChange layer b).currentLayer = layer)
    ∧ ((Baseline.handleLayerChange layer b).mapCenter = b.mapCenter)
    ∧ ((Baseline.handleLayerChange layer b).mapZoom = b.mapZoom)
    ∧ ((Baseline.handleLayerChange layer b).markers = b.markers)
    ∧ ((Baseline.handleLayerChange layer b).selectedLocation = b.selectedLocation)
    ∧ ((Baseline.handleLayerChange layer b).clickedLocation = b.clickedLocation) :=
  ⟨rfl, rfl, rfl, rfl, rfl, rfl, rfl, rfl, rfl, rfl, rfl, rfl, rfl, rfl, rfl⟩

/-- Claim C8: the InfoPanel is a pure projection of the pair of optional
locations: it renders nothing exactly when both are absent, renders the
selected location whenever present, falls back to the clicked location
otherwise, and every rendered coordinate text is a 6 decimal place
formatted string. -/
theorem info_panel_C8 (sel : Option Location) (clicked : Option Coordinate) :
    (InfoPanel sel clicked = none ↔ (sel = none ∧ clicked = none))
    ∧ (∀ l, sel = some l →
        InfoPanel sel clicked
          = some { latText := toFixed l.lat 6, lngText := toFixed l.lng 6
                   placeText := jsTruthyName l.name })
    ∧ (∀ c, sel = none → clicked = some c →
        InfoPanel sel clicked
          = some { latText := toFixed c.lat 6, lngText := toFixed c.lng 6
                   placeText := none })
    ∧ (∀ r, InfoPanel sel clicked = some r →
        (∃ p ds, r.latText = p ++ "." ++ String.mk ds ∧ ds.length = 6)
        ∧ (∃ p ds, r.lngText = p ++ "." ++ String.mk ds ∧ ds.length = 6)) := by
  refine ⟨?_, ?_, ?_, ?_⟩
  · cases sel <;> cases clicked <;> simp [InfoPanel]
  · rintro l rfl
    cases clicked <;> rfl
  · rintro c rfl rfl
    rfl
  · intro r hr
    obtain ⟨a, v, ha, hv⟩ := InfoPanel_texts sel clicked r hr
    rw [ha, hv]
    exact ⟨toFixed_splitSix a, toFixed_splitSix v⟩

/-- Witness for C8 at a concrete selected location with both cells legal:
the panel renders the selected location. -/
theorem info_panel_C8_witness :
    InfoPanel (some parisLocation) (some sampleCoordinate)
      = some { latText := toFixed parisLocation.lat 6
               lngText := toFixed parisLocation.lng 6
               placeText := jsTruthyName parisLocation.name } :=
  (info_panel_C8 (some parisLocation) (some sampleCoordinate)).2.1 parisLocation rfl

/-- Claim C9: a submitted search whose text is empty or whitespace-only
returns early: no fetch is issued, the loading flag is never set, no notice
appears, and the state is unchanged, in both variants. -/
theorem empty_query_noop_C9 (now : ℕ) (q : String) (resp : FetchResult)
    (s : Bilingual.State) (b : Baseline.State) (hq : jsTrim q = "") :
    Bilingual.searchSubmit now q resp s
        = { state := s, notice := none, requestIssued := false, loadingUsed := false }
    ∧ Baseline.searchSubmit now q resp b
        = { state := b, notice := none, requestIssued := false, loadingUsed := false } := by
  simp [Bilingual.searchSubmit, Baseline.searchSubmit, hq]

/-- Witness for C9 at a concrete whitespace-only query. -/
theorem empty_query_noop_C9_witness :
    Bilingual.searchSubmit 0 "   " FetchResult.fail Bilingual.initialState
        = { state := Bilingual.initialState
            notice := none
            requestIssued := false
            loadingUsed := false }
    ∧ Baseline.searchSubmit 0 "   " FetchResult.fail Baseline.initialState
        = { state := Baseline.initialState
            notice := none
            requestIssued := false
            loadingUsed := false } :=
  empty_query_noop_C9 0 "   " FetchResult.fail Bilingual.initialState
    Baseline.initialState (by decide)

/-- Claim C10: a language switch leaves the search markers, the click
marker, the center, the zoom, and both location cells unchanged; in
particular every existing marker keeps the label it was synthesized with at
creation time. -/
theorem language_switch_frame_C10 (lang : Lang) (s : Bilingual.State) :
    ((Bilingual.handleLanguageChange lang s).searchMarkers = s.searchMarkers)
    ∧ ((Bilingual.handleLanguageChange lang s).clickMarker = s.clickMarker)
    ∧ ((Bilingual.handleLanguageChange lang s).mapCenter = s.mapCenter)
    ∧ ((Bilingual.handleLanguageChange lang s).mapZoom = s.mapZoom)
    ∧ ((Bilingual.handleLanguageChange lang s).selectedLocation = s.selectedLocation)
    ∧ ((Bilingual.handleLanguageChange lang s).clickedLocation = s.clickedLocation)
    ∧ ((Bilingual.handleLanguageChange lang s).searchMarkers.map Marker.name
        = s.searchMarkers.map Marker.name) :=
  ⟨rfl, rfl, rfl, rfl, rfl, rfl, rfl⟩
